import Mathlib

/-!
Verification development for the movie_finder repository: a shallow
embedding of the Letterboxd rating resolution engine (`src/letterboxd.py`)
and of the listing normalizer / deduplicator (`src/scraper.py`), together
with theorems settling the specification claims.

Strings are modelled as Lean `String` (lists of unicode scalar values);
timestamps as epoch seconds (`Int`); Python `float` rating values as `ℚ`.
-/

namespace MovieFinder

/-! ## Python string primitives -/

/-- Python regex `\s` whitespace class (the ASCII members, which are the
only whitespace the titles here contain). -/
def isWs (c : Char) : Bool :=
  c = ' ' || c = '\t' || c = '\n' || c = '\x0d' || c = '\x0b' || c = '\x0c'

/-- Python regex `\w` word character (ASCII members). -/
def isWordChar (c : Char) : Bool :=
  c.isAlphanum || c = '_'

/-- Numeric value of a digit string (most significant first). -/
def digitsVal (cs : List Char) : Nat :=
  cs.foldl (fun a c => a * 10 + (c.toNat - 48)) 0

/-- `some` value iff the (nonempty) char list is all decimal digits. -/
def digits? (cs : List Char) : Option Nat :=
  if cs ≠ [] ∧ cs.all Char.isDigit then some (digitsVal cs) else none

/-- Lower-case a string, as Python `str.lower()` does on the ASCII titles
used here. -/
def pyLower (s : String) : String :=
  ⟨s.data.map Char.toLower⟩

/-- Python substring test `sub in s`, on the underlying character lists. -/
def strContains (s sub : String) : Bool :=
  decide (sub.data <:+: s.data)

/-- Python `str.strip()` (strip surrounding whitespace). -/
def pyStrip (s : String) : String :=
  ⟨((s.data.dropWhile isWs).reverse.dropWhile isWs).reverse⟩

/-- Python `str.replace(old, new)` with a single-character `old`,
covering every `.replace` call in `generate_letterboxd_url`. -/
def replaceChar (s : String) (old : Char) (new : String) : String :=
  ⟨s.data.foldr (fun c acc => if c = old then new.data ++ acc else c :: acc) []⟩

/-- Does the string end with the given suffix, compared case-insensitively?
(for the `re.IGNORECASE` end-anchored literal rules). -/
def endsWithCI (s : String) (suf : String) : Bool :=
  decide ((suf.data.map Char.toLower) <:+ (s.data.map Char.toLower))

/-- Parser model of Python `float(text)`: optional surrounding whitespace,
optional sign, then decimal digits with at most one point (at least one
digit overall).  Exponent/inf/nan forms, which never occur in this
repository's data, are not modelled and yield `none` (a raised
`ValueError` in Python also maps to `none`). -/
def pyFloat? (s : String) : Option ℚ :=
  let core : List Char → Option ℚ := fun cs =>
    let intPart := cs.takeWhile Char.isDigit
    let rest := cs.dropWhile Char.isDigit
    match rest with
    | [] => if intPart = [] then none else some (digitsVal intPart)
    | '.' :: frac =>
        if frac.all Char.isDigit ∧ (intPart ≠ [] ∨ frac ≠ []) then
          some ((digitsVal intPart : ℚ) + (digitsVal frac : ℚ) / ((10 : ℚ) ^ frac.length))
        else none
    | _ => none
  let cs := ((s.data.dropWhile isWs).reverse.dropWhile isWs).reverse
  match cs with
  | '+' :: t => core t
  | '-' :: t => (core t).map Neg.neg
  | t => core t

/-! ## ISO timestamps

`datetime.fromisoformat` / `datetime.now()` are modelled at second
granularity over epoch seconds, using the standard civil-from-days
conversion.  The parser accepts `YYYY-MM-DD` optionally followed by a
one-character separator and `HH:MM:SS` with an optional fractional part
(whose sub-second value is truncated, since the model counts whole
seconds); anything else raises `ValueError`, i.e. returns `none`. -/

/-- Leap year test (Gregorian). -/
def isLeap (y : Int) : Bool :=
  y % 4 = 0 && (y % 100 ≠ 0 || y % 400 = 0)

/-- Days in a month. -/
def daysInMonth (y m : Int) : Int :=
  if m = 2 then (if isLeap y then 29 else 28)
  else if m = 4 ∨ m = 6 ∨ m = 9 ∨ m = 11 then 30
  else 31

/-- Days since 1970-01-01 of a civil date (Hinnant's algorithm; the
divisions all act on non-negative operands). -/
def daysFromCivil (y m d : Int) : Int :=
  let y := if m ≤ 2 then y - 1 else y
  let era : Int := (if 0 ≤ y then y else y - 399) / 400
  let yoe := y - era * 400
  let doy := (153 * (if m > 2 then m - 3 else m + 9) + 2) / 5 + d - 1
  let doe := yoe * 365 + yoe / 4 - yoe / 100 + doy
  era * 146097 + doe - 719468

/-- Parse the optional time-of-day tail of an ISO string: empty, or a
separator char plus `HH:MM:SS` plus optional `.digits`. -/
def isoTime? : List Char → Option Int
  | [] => some 0
  | _ :: h1 :: h2 :: ':' :: m1 :: m2 :: ':' :: s1 :: s2 :: rest => do
      let h ← digits? [h1, h2]
      let mi ← digits? [m1, m2]
      let se ← digits? [s1, s2]
      if h < 24 ∧ mi < 60 ∧ se < 60 then
        match rest with
        | [] => some (h * 3600 + mi * 60 + se)
        | '.' :: frac =>
            if frac ≠ [] ∧ frac.all Char.isDigit then some (h * 3600 + mi * 60 + se)
            else none
        | _ => none
      else none
  | _ => none

/-- Model of `datetime.fromisoformat(s)` giving epoch seconds; `none`
models a raised `ValueError`. -/
def fromIso? (s : String) : Option Int :=
  match s.data with
  | y1 :: y2 :: y3 :: y4 :: '-' :: m1 :: m2 :: '-' :: d1 :: d2 :: rest => do
      let y ← digits? [y1, y2, y3, y4]
      let m ← digits? [m1, m2]
      let d ← digits? [d1, d2]
      if 1 ≤ m ∧ m ≤ 12 ∧ 1 ≤ d ∧ (d : Int) ≤ daysInMonth y m then
        let t ← isoTime? rest
        some (daysFromCivil y m d * 86400 + t)
      else none
  | _ => none

/-- Zero-pad a natural number to a given width. -/
def padNum (width n : Nat) : List Char :=
  let ds := (toString n).data
  List.replicate (width - ds.length) '0' ++ ds

/-- Civil date of a day count (inverse of `daysFromCivil`). -/
def civilFromDays (z : Int) : Int × Int × Int :=
  let z := z + 719468
  let era : Int := (if 0 ≤ z then z else z - 146096) / 146097
  let doe := z - era * 146097
  let yoe := (doe - doe / 1460 + doe / 36524 - doe / 146096) / 365
  let y := yoe + era * 400
  let doy := doe - (365 * yoe + yoe / 4 - yoe / 100)
  let mp := (5 * doy + 2) / 153
  let d := doy - (153 * mp + 2) / 5 + 1
  let m := if mp < 10 then mp + 3 else mp - 9
  ((if m ≤ 2 then y + 1 else y), m, d)

/-- Model of `datetime.now().isoformat()` for an epoch-seconds clock. -/
def isoOfSeconds (t : Int) : String :=
  let days := (if 0 ≤ t then t else t - 86399) / 86400
  let sod := (t - days * 86400).toNat
  let (y, m, d) := civilFromDays days
  ⟨padNum 4 y.toNat ++ '-' :: padNum 2 m.toNat ++ '-' :: padNum 2 d.toNat ++
    'T' :: padNum 2 (sod / 3600) ++ ':' :: padNum 2 (sod % 3600 / 60) ++
    ':' :: padNum 2 (sod % 60)⟩

/-! ## Cache store (`LetterboxdAPI` CSV cache) -/

/-- A `rating_count` value: a directly-read integer, a
histogram-computed count (serialized `"{n}*"` in Python), or the raw
string read back from a CSV row. -/
inductive RatingCount where
  | num (n : Int)
  | computed (n : Int)
  | raw (s : String)
deriving Repr, DecidableEq

/-- An in-memory cache entry (value of `self.csv_cache[url]`). -/
structure CacheEntry where
  title : String
  rating : ℚ
  rating_count : Option RatingCount
  year : Option String
  updated : String
  url : String
deriving Repr, DecidableEq

/-- Python `dict` as an insertion-ordered association list. -/
def dictInsert {α : Type} (m : List (String × α)) (k : String) (v : α) :
    List (String × α) :=
  if m.any (fun p => p.1 = k) then
    m.map (fun p => if p.1 = k then (k, v) else p)
  else m ++ [(k, v)]

/-- Python `dict` lookup (`m[k]` / `m.get(k)`). -/
def dictFind? {α : Type} (m : List (String × α)) (k : String) : Option α :=
  (m.find? (fun p => p.1 = k)).map (fun p => p.2)

abbrev CsvCache := List (String × CacheEntry)

/-- One CSV row as produced by `csv.DictReader` over the cache file
(all six header fields, as raw strings). -/
structure CsvRow where
  letterboxd_url : String
  title : String
  rating : String
  rating_count : String
  year : String
  updated : String
deriving Repr, DecidableEq

/-- The row's rating per `_load_csv_cache`:
`float(row['rating']) if row['rating'] and row['rating'] != 'None' else None`;
`Except.error` models the `ValueError` that `float` raises on a
malformed numeric string. -/
def rowRating (r : CsvRow) : Except Unit (Option ℚ) :=
  if r.rating ≠ "" ∧ r.rating ≠ "None" then
    match pyFloat? r.rating with
    | some q => .ok (some q)
    | none => .error ()
  else .ok none

/-- The in-memory entry `_load_csv_cache` builds from a row whose rating
parsed to `q`. -/
def rowEntry (r : CsvRow) (q : ℚ) : CacheEntry :=
  { title := r.title
    rating := q
    rating_count :=
      if r.rating_count ≠ "" ∧ r.rating_count ≠ "None" then some (.raw r.rating_count)
      else none
    year := if r.year ≠ "" ∧ r.year ≠ "None" then some r.year else none
    updated := r.updated
    url := r.letterboxd_url }

/-- The reader loop of `_load_csv_cache`: rows are consumed in order;
rows whose rating is `None` are skipped; a rating string that makes
`float` raise aborts the whole loop (the surrounding `try`). -/
def loadRows : List CsvRow → CsvCache → Option CsvCache
  | [], acc => some acc
  | r :: rs, acc =>
      match rowRating r with
      | .error _ => none
      | .ok none => loadRows rs acc
      | .ok (some q) => loadRows rs (dictInsert acc r.letterboxd_url (rowEntry r q))

/-- `_load_csv_cache` on the rows of an existing cache file: on any
exception the handler resets `self.csv_cache = {}`. -/
def loadCsvCache (rows : List CsvRow) : CsvCache :=
  (loadRows rows []).getD []

/-- `_get_from_cache`: a hit only if the URL is indexed, its timestamp
parses, and `now - updated <= timedelta(days=1)`; a timestamp
`ValueError` is caught and yields a miss. -/
def getFromCache (cache : CsvCache) (now : Int) (url : String) : Option CacheEntry :=
  match dictFind? cache url with
  | some e =>
      match fromIso? e.updated with
      | some t => if now - t ≤ 86400 then some e else none
      | none => none
  | none => none

/-! ## Identifier normalizer (`MovieScraper.generate_letterboxd_url`)

Each `re.sub` of the Python function is embedded as one list-level
transformation with the same matching semantics (leftmost match, greedy
quantifiers, `re.IGNORECASE` where the source passes it). -/

/-- Case-insensitive literal prefix test. -/
def startsWithCI (cs : List Char) (lit : String) : Bool :=
  decide ((lit.data.map Char.toLower) <+: (cs.map Char.toLower))

/-- Case-insensitive literal suffix test on a list. -/
def endsWithCIL (cs : List Char) (lit : String) : Bool :=
  decide ((lit.data.map Char.toLower) <:+ (cs.map Char.toLower))

/-- Drop a case-insensitive literal from the head of a *reversed* list
(i.e. match it at the end of the original string). -/
def dropSufCI (lit : String) (rev : List Char) : Option (List Char) :=
  let rl := (lit.data.reverse).map Char.toLower
  if (rev.take rl.length).map Char.toLower = rl then some (rev.drop rl.length)
  else none

/-- `re.sub(r'^.*?\s+Presents:\s*', '', t, re.IGNORECASE)`: drop
everything through the first whitespace-preceded "Presents:" and the
whitespace after it. -/
def stripPresents (cs : List Char) : List Char :=
  go cs |>.getD cs
where
  go : List Char → Option (List Char)
    | [] => none
    | c :: cs =>
        if isWs c then
          let rest := (c :: cs).dropWhile isWs
          if startsWithCI rest "Presents:" then
            some ((rest.drop 9).dropWhile isWs)
          else go cs
        else go cs

/-- `re.sub(r'\s*LIT$', '', t, re.IGNORECASE)` for a literal `LIT`. -/
def subSuffixCI (lit : String) (cs : List Char) : List Char :=
  if endsWithCIL cs lit then
    (((cs.take (cs.length - lit.data.length)).reverse).dropWhile isWs).reverse
  else cs

/-- `re.sub(r':?\s*\d+(?:st|nd|rd|th)\s*Anniversary$', '', t, re.IGNORECASE)`. -/
def subAnniversary (cs : List Char) : List Char :=
  (do
    let r1 ← dropSufCI "Anniversary" cs.reverse
    let r2 := r1.dropWhile isWs
    let r3 ← (dropSufCI "st" r2) <|> (dropSufCI "nd" r2) <|>
             (dropSufCI "rd" r2) <|> (dropSufCI "th" r2)
    let ds := r3.takeWhile Char.isDigit
    if ds = [] then none else
    let r4 := r3.drop ds.length
    let r5 := r4.dropWhile isWs
    let r6 := match r5 with | ':' :: t => t | t => t
    some r6.reverse).getD cs

/-- `re.sub(r'\s*Re-?release$', '', t, re.IGNORECASE)`. -/
def subReRelease (cs : List Char) : List Char :=
  if endsWithCIL cs "re-release" then subSuffixCI "re-release" cs
  else if endsWithCIL cs "rerelease" then subSuffixCI "rerelease" cs
  else cs

/-- `re.sub(r'\s*\(\d{4}\s+WORD\)$', '', t, re.IGNORECASE)` for
`WORD ∈ {Reconstruction, Restoration}`. -/
def subParenYearWord (word : String) (cs : List Char) : List Char :=
  (do
    let r1 ← match cs.reverse with | ')' :: t => some t | _ => none
    let r2 ← dropSufCI word r1
    let r3 := r2.dropWhile isWs
    if r3.length = r2.length then none else
    let ds := r3.takeWhile Char.isDigit
    if ds.length ≠ 4 then none else
    let r4 ← match r3.drop 4 with | '(' :: t => some t | _ => none
    some ((r4.dropWhile isWs).reverse)).getD cs

/-- `re.sub(r'\s*\[[^\]]+\]$', '', t, re.IGNORECASE)`. -/
def subBracketSuffix (cs : List Char) : List Char :=
  if cs.getLast? = some ']' then
    let body := cs.dropLast
    let tail := ((body.reverse).takeWhile (fun c => c ≠ ']')).reverse
    let pre := body.take (body.length - tail.length)
    match tail.findIdx? (fun c => c = '[') with
    | some j =>
        if j + 1 < tail.length then
          (((pre ++ tail.take j).reverse).dropWhile isWs).reverse
        else cs
    | none => cs
  else cs

/-- `re.sub(r'\s*in\s+\d+mm$', '', t, re.IGNORECASE)`. -/
def subInMm (cs : List Char) : List Char :=
  (do
    let r1 ← dropSufCI "mm" cs.reverse
    let ds := r1.takeWhile Char.isDigit
    if ds = [] then none else
    let r2 := r1.drop ds.length
    let r3 := r2.dropWhile isWs
    if r3.length = r2.length then none else
    let r4 ← dropSufCI "in" r3
    some ((r4.dropWhile isWs).reverse)).getD cs

/-- `re.sub(r'\s*:\s*The Director\'?s Cut$', '', t, re.IGNORECASE)`. -/
def subDirectorsCut (cs : List Char) : List Char :=
  (do
    let rev := cs.reverse
    let r1 ← (dropSufCI "The Director's Cut" rev) <|> (dropSufCI "The Directors Cut" rev)
    let r2 := r1.dropWhile isWs
    let r3 ← match r2 with | ':' :: t => some t | _ => none
    some ((r3.dropWhile isWs).reverse)).getD cs

/-- `re.search(r'\((\d{4})\)', t)`: the first parenthesized 4-digit year. -/
def findParenYear : List Char → Option (List Char)
  | [] => none
  | '(' :: rest =>
      if (rest.take 4).length = 4 ∧ (rest.take 4).all Char.isDigit ∧
          (rest.drop 4).headD ' ' = ')' then
        some (rest.take 4)
      else findParenYear rest
  | _ :: rest => findParenYear rest

/-- Match `\s*\(\d{4}\)` anchored at the head of the list; return what
follows the match (one step of the global `re.sub(r'\s*\(\d{4}\)', '', t)`). -/
def parenYearAt (cs : List Char) : Option (List Char) :=
  match cs.dropWhile isWs with
  | '(' :: t =>
      if (t.take 4).length = 4 ∧ (t.take 4).all Char.isDigit ∧
          (t.drop 4).headD ' ' = ')' then
        some (t.drop 5)
      else none
  | _ => none

/-- The global substitution`re.sub(r'\s*\(\d{4}\)', '', t)`, scanning
left to right.  The scan is driven by a fuel counter equal to the list
length: every step strictly shortens the remaining list (a match
consumes at least the five characters `(dddd)`), so the fuel never runs
out and the zero-fuel branch is unreachable. -/
def removeParenYearsGo : Nat → List Char → List Char
  | _, [] => []
  | 0, cs => cs
  | fuel + 1, c :: cs =>
      match parenYearAt (c :: cs) with
      | some rest => removeParenYearsGo fuel rest
      | none => c :: removeParenYearsGo fuel cs

def removeParenYears (cs : List Char) : List Char :=
  removeParenYearsGo cs.length cs

/-- Is the position after a word character a `\b` boundary? -/
def boundaryAfter : List Char → Bool
  | [] => true
  | c :: _ => ¬ isWordChar c

/-- `re.sub(apo ++ suf ++ r'\b', suf, t)` — one contraction rule
(case-sensitive, as in the source).  Fuel-driven scan as in
`removeParenYearsGo`; every step consumes at least one character. -/
def subContractionGo (apo : Char) (suf : String) : Nat → List Char → List Char
  | _, [] => []
  | 0, cs => cs
  | fuel + 1, c :: cs =>
      if c = apo ∧ suf.data <+: cs ∧ boundaryAfter (cs.drop suf.data.length) then
        suf.data ++ subContractionGo apo suf fuel (cs.drop suf.data.length)
      else c :: subContractionGo apo suf fuel cs

def subContraction (apo : Char) (suf : String) (cs : List Char) : List Char :=
  subContractionGo apo suf cs.length cs

/-- Python `str.replace(old, new)` on a character list, `old` a single char. -/
def replaceCharL (old : Char) (new : List Char) (cs : List Char) : List Char :=
  cs.foldr (fun c acc => if c = old then new ++ acc else c :: acc) []

/-- `unicodedata.normalize('NFD', t)` followed by dropping category-Mn
marks, restricted to the precomposed Latin letters that occur in venue
titles (identity on all other characters — in particular exact on
ASCII, which is all the claims evaluate). -/
def diacriticTable : List (Char × Char) :=
  [('á','a'), ('à','a'), ('â','a'), ('ä','a'), ('ã','a'), ('å','a'),
   ('é','e'), ('è','e'), ('ê','e'), ('ë','e'),
   ('í','i'), ('ì','i'), ('î','i'), ('ï','i'),
   ('ó','o'), ('ò','o'), ('ô','o'), ('ö','o'), ('õ','o'),
   ('ú','u'), ('ù','u'), ('û','u'), ('ü','u'),
   ('ý','y'), ('ÿ','y'), ('ñ','n'), ('ç','c'),
   ('Á','A'), ('À','A'), ('Â','A'), ('Ä','A'), ('Ã','A'), ('Å','A'),
   ('É','E'), ('È','E'), ('Ê','E'), ('Ë','E'),
   ('Í','I'), ('Ì','I'), ('Î','I'), ('Ï','I'),
   ('Ó','O'), ('Ò','O'), ('Ô','O'), ('Ö','O'), ('Õ','O'),
   ('Ú','U'), ('Ù','U'), ('Û','U'), ('Ü','U'),
   ('Ý','Y'), ('Ñ','N'), ('Ç','C')]

def nfdStripMarks (cs : List Char) : List Char :=
  cs.map (fun c => (((diacriticTable.find? (fun p => p.1 = c)).map (fun p => p.2)).getD c))

/-- `re.sub(r'(\d)OP(\d)', repl, t)` (global) for the two arithmetic
collapses. -/
def subDigitOpGo (op : Char) (mk : Char → Char → List Char) :
    Nat → List Char → List Char
  | _, [] => []
  | 0, cs => cs
  | fuel + 1, a :: rest =>
      match rest with
      | o :: b :: rest2 =>
          if a.isDigit ∧ o = op ∧ b.isDigit then
            mk a b ++ subDigitOpGo op mk fuel rest2
          else a :: subDigitOpGo op mk fuel (o :: b :: rest2)
      | _ => a :: subDigitOpGo op mk fuel rest

def subDigitOp (op : Char) (mk : Char → Char → List Char) (cs : List Char) :
    List Char :=
  subDigitOpGo op mk cs.length cs

/-- `re.sub(r'[^a-zA-Z0-9]+', '-', t)` (global), fuel-driven as in
`removeParenYearsGo`. -/
def collapseNonAlnumGo : Nat → List Char → List Char
  | _, [] => []
  | 0, cs => cs
  | fuel + 1, c :: cs =>
      if c.isAlphanum then c :: collapseNonAlnumGo fuel cs
      else '-' :: collapseNonAlnumGo fuel (cs.dropWhile (fun d => ! d.isAlphanum))

def collapseNonAlnum (cs : List Char) : List Char :=
  collapseNonAlnumGo cs.length cs

/-- Python `slug.strip('-')`. -/
def trimHyphens (cs : List Char) : List Char :=
  (((cs.dropWhile (fun c => c = '-')).reverse).dropWhile (fun c => c = '-')).reverse

/-- `MovieScraper.generate_letterboxd_url` (scraper.py lines 16-109),
one `let` per Python statement, in source order. -/
def generate_letterboxd_url (title : String) : String :=
  let t := stripPresents title.data
  let t := subSuffixCI "(Subtitled)" t
  let t := subSuffixCI "(Dubbed)" t
  let t := subSuffixCI "Remastered" t
  let t := subSuffixCI "Movie Party" t
  let t := subAnniversary t
  let t := subSuffixCI "Early Access" t
  let t := subSuffixCI "with Live Q&A" t
  let t := subReRelease t
  let t := subSuffixCI "A Sing-Along Event" t
  let t := subParenYearWord "Reconstruction" t
  let t := subParenYearWord "Restoration" t
  let t := subBracketSuffix t
  let t := subInMm t
  let t := subDirectorsCut t
  let year := findParenYear t
  let t := if year.isSome then removeParenYears t else t
  let t := [("s" : String), "d", "t", "ll", "re", "ve"].foldl
    (fun acc suf =>
      ['\'', '’', '‘', '`'].foldl
        (fun a apo => subContraction apo suf a) acc) t
  let t := replaceCharL '\'' [] t
  let t := replaceCharL '\'' [] t
  let t := replaceCharL '`' [] t
  let t := replaceCharL '\'' [] t
  let t := replaceCharL '\'' [] t
  let t := replaceCharL 'ʼ' [] t
  let t := replaceCharL 'ˈ' [] t
  let t := replaceCharL '.' [] t
  let t := replaceCharL '&' ['a', 'n', 'd'] t
  let t := nfdStripMarks t
  let t := subDigitOp '+' (fun a b => [a, b]) t
  let t := subDigitOp '=' (fun a b => [a, '-', b]) t
  let slug := trimHyphens (collapseNonAlnum (t.map Char.toLower))
  let slug := match year with
    | some ds => slug ++ '-' :: ds
    | none => slug
  "https://letterboxd.com/film/" ++ String.mk slug ++ "/"

/-! ## Title transformations of the fallback chain (`get_rating_from_url`) -/

/-- `re.search(r'-\d{4}/?$', letterboxd_url)` is not `None`. -/
def urlHasYearSuffix (url : String) : Bool :=
  let r := match url.data.reverse with | '/' :: t => t | t => t
  match r with
  | a :: b :: c :: d :: '-' :: _ => a.isDigit && b.isDigit && c.isDigit && d.isDigit
  | _ => false

/-- `re.sub(r'\s*\(\d{4}\)', '', title)` — year removal from a title. -/
def removeParenYear (title : String) : String :=
  ⟨removeParenYears title.data⟩

/-- `' with ' in title.lower()`. -/
def hasWithWord (title : String) : Bool :=
  strContains (pyLower title) " with "

/-- `re.sub(r'\s+with\s+.*$', '', title, flags=re.IGNORECASE)`. -/
def stripWithSuffix (title : String) : String :=
  ⟨go title.data⟩
where
  go : List Char → List Char
    | [] => []
    | c :: cs =>
        if isWs c then
          let rest := (c :: cs).dropWhile isWs
          if startsWithCI rest "with" &&
              (match rest.drop 4 with | d :: _ => isWs d | [] => false) then
            []
          else c :: go cs
        else c :: go cs

/-- `'&' in title`. -/
def hasAmp (title : String) : Bool :=
  title.data.any (fun c => c = '&')

/-- `re.sub(r'\s*&\s*', ' ', title)` (global), fuel-driven as in
`removeParenYearsGo`. -/
def subAmpSpaceGo : Nat → List Char → List Char
  | _, [] => []
  | 0, cs => cs
  | fuel + 1, c :: cs =>
      let run := (c :: cs).takeWhile isWs
      match (c :: cs).drop run.length with
      | '&' :: rest => ' ' :: subAmpSpaceGo fuel (rest.dropWhile isWs)
      | _ => c :: subAmpSpaceGo fuel cs

def subAmpSpace (cs : List Char) : List Char :=
  subAmpSpaceGo cs.length cs

/-- `re.sub(r'\s+', ' ', t)` (global), fuel-driven as in
`removeParenYearsGo`. -/
def collapseWsGo : Nat → List Char → List Char
  | _, [] => []
  | 0, cs => cs
  | fuel + 1, c :: cs =>
      if isWs c then ' ' :: collapseWsGo fuel (cs.dropWhile isWs)
      else c :: collapseWsGo fuel cs

def collapseWs (cs : List Char) : List Char :=
  collapseWsGo cs.length cs

/-- The ampersand fallback transformation (letterboxd.py lines 177-179 /
211-213): replace `&` by a space, collapse whitespace, strip. -/
def ampersandTitle (title : String) : String :=
  pyStrip ⟨collapseWs (subAmpSpace title.data)⟩

/-- `re.search(r'\d{4}', text)`: first run of four digits. -/
def find4Digits : List Char → Option String
  | [] => none
  | c :: cs =>
      if ((c :: cs).take 4).length = 4 ∧ ((c :: cs).take 4).all Char.isDigit then
        some ⟨(c :: cs).take 4⟩
      else find4Digits cs

/-! ## Rating fetcher (`LetterboxdAPI._fetch_rating_from_url`)

The HTTP / HTML collaborators are injected as a page oracle
`String → PageData` recording exactly the observations the Python code
makes of a response: status, the JSON-LD script outcomes in document
order, the dynamic-rendering result, and the two CSS-selected texts. -/

/-- What one `<script type="application/ld+json">` contributes.
`notMovie`: empty/unparseable JSON, or parseable but not a
`@type == 'Movie'` dict (the loop just continues).  `movieRaise`: a
Movie dict whose aggregate fields make `float`/`int` raise after
`found_movie_data`, `year` and possibly `rating` were already assigned
(the inner `except` catches and continues).  `movie`: a Movie dict
processed to the `break`, with its optional `dateCreated` string and
its optional already-numeric `aggregateRating` pair
(`ratingValue`, `ratingCount`, the `.get(…, 0)` defaults folded in). -/
inductive ScriptOutcome where
  | notMovie
  | movieRaise (dateCreated : Option String) (r : Option ℚ)
  | movie (dateCreated : Option String) (aggregate : Option (ℚ × Int))
deriving Repr, DecidableEq

/-- The observations `_fetch_rating_from_url` makes of one URL:
`ok` is `status_code == 200`; `dynamic` is `_get_dynamic_rating`'s
`(rating, rating_count, is_computed)` with `none` for the
`(None, None, False)` outcome; `avgText` is the `.average-rating`
element's text when the element exists; `filmTitleText` likewise for
`.film-title-wrapper a`. -/
structure PageData where
  ok : Bool
  scripts : List ScriptOutcome
  dynamic : Option (ℚ × Int × Bool)
  avgText : Option String
  filmTitleText : Option String
deriving Repr, DecidableEq

/-- The loop-local variables of the JSON-LD script loop. -/
structure LoopSt where
  rating : Option ℚ
  cnt : Option RatingCount
  year : Option String
  found : Bool
deriving Repr, DecidableEq

/-- The `for script in json_scripts` loop (letterboxd.py lines 244-278):
first fully-processed Movie script breaks; raising scripts update and
continue. -/
def scriptsLoop (dyn : Option (ℚ × Int × Bool)) :
    List ScriptOutcome → LoopSt → LoopSt
  | [], st => st
  | .notMovie :: rest, st => scriptsLoop dyn rest st
  | .movieRaise dc r :: rest, st =>
      scriptsLoop dyn rest
        { st with found := true
                  year := (dc.bind (fun s => find4Digits s.data)) <|> st.year
                  rating := r <|> st.rating }
  | .movie dc agg :: _, st =>
      let year := (dc.bind (fun s => find4Digits s.data)) <|> st.year
      match agg with
      | some (rv, rc) => { rating := some rv, cnt := some (.num rc), year := year, found := true }
      | none =>
          match dyn with
          | some (r, c, comp) =>
              { rating := some r
                cnt := some (if comp then .computed c else .num c)
                year := year, found := true }
          | none => { rating := none, cnt := none, year := year, found := true }

/-- The result dict of `_fetch_rating_from_url` / `get_rating_from_url`
(the all-`None` "not found" dicts lack the `computed_from_histogram`
key; they are modelled with the field `false`). -/
structure RatingRecord where
  rating : Option ℚ
  rating_count : Option RatingCount
  url : Option String
  year : Option String
  computed_from_histogram : Bool
deriving Repr, DecidableEq

/-- `{'rating': None, 'rating_count': None, 'url': None, 'year': None}`. -/
def noneRecord : RatingRecord :=
  { rating := none, rating_count := none, url := none, year := none
    computed_from_histogram := false }

/-- The mutable state of a `LetterboxdAPI` instance. -/
structure ApiState where
  csv_cache : CsvCache
  cache : List (String × RatingRecord)
  movies_found_no_rating : List String
deriving Repr, DecidableEq

/-- `rating = float(rating_text) if rating_text else None` on the
stripped `.average-rating` text; `Except.error` is the uncaught
`ValueError` that aborts to the outer handler. -/
def avgRating (txt : Option String) : Except Unit (Option ℚ) :=
  match txt with
  | none => .ok none
  | some t =>
      let rt := pyStrip t
      if rt = "" then .ok none
      else
        match pyFloat? rt with
        | some q => .ok (some q)
        | none => .error ()

/-- The cache entry `_save_to_csv_cache` builds (its `updated` field is
`datetime.now().isoformat()`). -/
def savedEntry (now : Int) (letterboxd_url title : String) (r : ℚ)
    (cnt : Option RatingCount) (year : Option String) : CacheEntry :=
  { title := title, rating := r, rating_count := cnt, year := year
    updated := isoOfSeconds now, url := letterboxd_url }

/-- The post-loop HTML fallback block of `_fetch_rating_from_url`
(letterboxd.py lines 280-307): returns the final `(rating, year,
found_movie_data, no-rating appends made inside the block)` or the
uncaught `ValueError` of `float` on a non-numeric `.average-rating`
text. -/
def fetchStage (pd : PageData) (letterboxd_url : String) (ls : LoopSt) :
    Except Unit (Option ℚ × Option String × Bool × List String) :=
  if ls.rating = none ∧ ls.found then
    match avgRating pd.avgText with
    | .error e => .error e
    | .ok r' =>
        .ok (r', ls.year, ls.found, if r' = none then [letterboxd_url] else [])
  else if ls.rating = none then
    match avgRating pd.avgText with
    | .error e => .error e
    | .ok r' =>
        let y' := (pd.filmTitleText.bind (fun t => find4Digits t.data)) <|> ls.year
        .ok (r', y', (if r'.isSome ∨ y'.isSome then true else ls.found), [])
  else .ok (ls.rating, ls.year, ls.found, [])

/-- The result dict construction and the cache / no-rating-list effects
at the end of `_fetch_rating_from_url` (letterboxd.py lines 309-329). -/
def fetchFinish (st : ApiState) (letterboxd_url title : String) (now : Int)
    (cnt : Option RatingCount) (r' : Option ℚ) (y' : Option String)
    (found' : Bool) (appends : List String) : RatingRecord × ApiState :=
  let result : RatingRecord :=
    { rating := r'
      rating_count := cnt
      url := if found' then some letterboxd_url else none
      year := y'
      computed_from_histogram :=
        match cnt with | some (.computed _) => true | _ => false }
  let nr := st.movies_found_no_rating ++ appends
  match r', found' with
  | some r, true =>
      (result,
       { st with
         cache := dictInsert st.cache title result
         csv_cache := dictInsert st.csv_cache letterboxd_url
           (savedEntry now letterboxd_url title r cnt y')
         movies_found_no_rating := nr })
  | none, true =>
      (result,
       { st with movies_found_no_rating :=
           if letterboxd_url ∈ nr then nr else nr ++ [letterboxd_url] })
  | _, false => (result, { st with movies_found_no_rating := nr })

/-- `_fetch_rating_from_url` (letterboxd.py lines 227-333): returns the
result record and the updated instance state.  Any exception (modelled:
the `float` `ValueError` on a non-numeric `.average-rating` text)
reaches the outer handler, which returns the all-`None` record with no
state change. -/
def fetchRatingFromUrl (page : String → PageData) (now : Int) (st : ApiState)
    (letterboxd_url title : String) : RatingRecord × ApiState :=
  let pd := page letterboxd_url
  if pd.ok = false then (noneRecord, st)
  else
    let ls := scriptsLoop pd.dynamic pd.scripts ⟨none, none, none, false⟩
    match fetchStage pd letterboxd_url ls with
    | .error _ => (noneRecord, st)
    | .ok (r', y', found', appends) =>
        fetchFinish st letterboxd_url title now ls.cnt r' y' found' appends

/-! ## Resolution fallback chain (`LetterboxdAPI.get_rating_from_url`) -/

/-- The record `get_rating_from_url` returns for a CSV-cache hit (the
Python code returns the cached dict itself; its `rating`/`url`/`year`
keys are the ones callers read). -/
def entryRecord (e : CacheEntry) : RatingRecord :=
  { rating := some e.rating, rating_count := e.rating_count
    url := some e.url, year := e.year, computed_from_histogram := false }

/-- The two trailing fallback attempts ("with"-suffix, then ampersand)
that the source duplicates at the end of both the year branch (lines
168-193) and the no-year branch (lines 195-225): each is attempted only
under its guard, a hit returns immediately, otherwise fall through.
Returns (result, state, fetched URLs). -/
def lateFallbacks (page : String → PageData) (now : Int) (st : ApiState)
    (title : String) : RatingRecord × ApiState × List String :=
  if hasWithWord title then
    let url3 := generate_letterboxd_url (stripWithSuffix title)
    let f3 := fetchRatingFromUrl page now st url3 title
    if f3.1.url ≠ none then (f3.1, f3.2, [url3])
    else if hasAmp title then
      let url4 := generate_letterboxd_url (ampersandTitle title)
      let f4 := fetchRatingFromUrl page now f3.2 url4 title
      if f4.1.url ≠ none then (f4.1, f4.2, [url3, url4])
      else (noneRecord, f4.2, [url3, url4])
    else (noneRecord, f3.2, [url3])
  else if hasAmp title then
    let url4 := generate_letterboxd_url (ampersandTitle title)
    let f4 := fetchRatingFromUrl page now st url4 title
    if f4.1.url ≠ none then (f4.1, f4.2, [url4])
    else (noneRecord, f4.2, [url4])
  else (noneRecord, st, [])

/-- `get_rating_from_url` (letterboxd.py lines 132-225): CSV cache,
in-process title cache, then the ordered fallback chain.  The third
component lists the URLs fetched from the network, in order. -/
def getRatingFromUrl (page : String → PageData) (now : Int) (st : ApiState)
    (letterboxd_url title : String) : RatingRecord × ApiState × List String :=
  match getFromCache st.csv_cache now letterboxd_url with
  | some e => (entryRecord e, st, [])
  | none =>
  match dictFind? st.cache title with
  | some r => (r, st, [])
  | none =>
      let f1 := fetchRatingFromUrl page now st letterboxd_url title
      if f1.1.url ≠ none then (f1.1, f1.2, [letterboxd_url])
      else if urlHasYearSuffix letterboxd_url then
        let url2 := generate_letterboxd_url (removeParenYear title)
        let f2 := fetchRatingFromUrl page now f1.2 url2 title
        if f2.1.url ≠ none then (f2.1, f2.2, [letterboxd_url, url2])
        else
          let fL := lateFallbacks page now f2.2 title
          (fL.1, fL.2.1, letterboxd_url :: url2 :: fL.2.2)
      else
        let fL := lateFallbacks page now f1.2 title
        (fL.1, fL.2.1, letterboxd_url :: fL.2.2)

/-! ## Batch coordinator (`filter_movies_by_cache`, `process_movie_batch`) -/

/-- A Python dict key that may be missing (`absent`), present with value
`None` (`null`), or present with a value. -/
inductive Field (α : Type) where
  | absent
  | null
  | val (a : α)
deriving Repr, DecidableEq

/-- `Field` of an optional value (`d[k] = v` where `v` may be `None`). -/
def fieldOfOption {α : Type} : Option α → Field α
  | some a => .val a
  | none => .null

/-- One listing dict as handled by the batch coordinator. -/
structure Movie where
  title : Option String
  venue : String
  sources : List String
  letterboxd_url : Field String
  letterboxd_rating : Field ℚ
  year : Field String
deriving Repr, DecidableEq

/-- `letterboxd_url = movie.get('letterboxd_url')` followed by the
truthiness test `if letterboxd_url`: the URL when present and
non-empty. -/
def truthyUrl : Field String → Option String
  | .val u => if u = "" then none else some u
  | _ => none

/-- The enrichment `filter_movies_by_cache` applies to a cache hit. -/
def enrichFromCache (movie : Movie) (e : CacheEntry) : Movie :=
  { movie with
    letterboxd_rating := .val e.rating
    letterboxd_url := .val e.url
    year := fieldOfOption e.year }

/-- `filter_movies_by_cache` (letterboxd.py lines 438-456): one loop
iteration per listing, each appended to the cached or the uncached list
(embedded recursively; both embeddings produce the partitions in input
order). -/
def filterMoviesByCache (cache : CsvCache) : List Movie → List Movie × List Movie
  | [] => ([], [])
  | movie :: rest =>
      let p := filterMoviesByCache cache rest
      match truthyUrl movie.letterboxd_url with
      | some u =>
          match dictFind? cache u with
          | some e => (enrichFromCache movie e :: p.1, p.2)
          | none => (p.1, movie :: p.2)
      | none => (p.1, movie :: p.2)

/-- `process_single_movie` (letterboxd.py lines 476-493): resolve one
uncached movie, write the three fields back, and append to the local
`movies_not_found` accumulator when neither rating nor URL was found.
Returns (movie, state, movies_not_found, fetched URLs). -/
def processSingleMovie (page : String → PageData) (now : Int) (st : ApiState)
    (notFound : List Movie) (movie : Movie) :
    Movie × ApiState × List Movie × List String :=
  match truthyUrl movie.letterboxd_url with
  | some u =>
      let t := movie.title.getD "Unknown"
      let g := getRatingFromUrl page now st u t
      let movie' := { movie with
        letterboxd_rating := fieldOfOption g.1.rating
        letterboxd_url := fieldOfOption g.1.url
        year := fieldOfOption g.1.year }
      let notFound' :=
        if g.1.rating = none ∧ g.1.url = none then notFound ++ [movie'] else notFound
      (movie', g.2.1, notFound', g.2.2)
  | none => (movie, st, notFound, [])

/-- The worker-pool phase, embedded sequentially (the claims under proof
are about lengths, per-listing fields and shared-state contents, none of
which depend on completion order). -/
def processBatchGo (page : String → PageData) (now : Int) :
    List Movie → ApiState → List Movie →
    List Movie × ApiState × List Movie × List String
  | [], st, nf => ([], st, nf, [])
  | m :: ms, st, nf =>
      let p := processSingleMovie page now st nf m
      let r := processBatchGo page now ms p.2.1 p.2.2.1
      (p.1 :: r.1, r.2.1, r.2.2.1, p.2.2.2 ++ r.2.2.2)

/-- `process_movie_batch` (letterboxd.py lines 458-526). -/
def processMovieBatch (page : String → PageData) (now : Int) (st : ApiState)
    (movies : List Movie) : List Movie × ApiState × List String :=
  if movies = [] then ([], st, [])
  else
    let parts := filterMoviesByCache st.csv_cache movies
    if parts.2 = [] then (parts.1, st, [])
    else
      let r := processBatchGo page now parts.2 st []
      let stR := (r.2).1
      let notFound := ((r.2).2).1
      let trace := ((r.2).2).2
      let nr2 := stR.movies_found_no_rating ++
        List.filterMap (fun m => truthyUrl m.letterboxd_url) notFound
      let st2 := { stR with movies_found_no_rating := nr2 }
      (parts.1 ++ r.1, st2, trace)

/-! ## Deduplicator (`MovieScraper.get_all_movies`, lines 920-954) -/

/-- A scraped listing. -/
structure Listing where
  title : String
  venue : String
  url : String
  source : String
  letterboxd_url : String
deriving Repr, DecidableEq

/-- A merged movie record (`movie.copy()` plus the `sources` list). -/
structure MergedMovie where
  title : String
  venue : String
  url : String
  source : String
  letterboxd_url : String
  sources : List String
deriving Repr, DecidableEq

/-- One iteration of the dedup loop of `get_all_movies`. -/
def mergeInto (m : List (String × MergedMovie)) (movie : Listing) :
    List (String × MergedMovie) :=
  let k := movie.letterboxd_url
  match dictFind? m k with
  | none =>
      dictInsert m k
        { title := movie.title, venue := movie.venue, url := movie.url
          source := movie.source, letterboxd_url := k, sources := [movie.source] }
  | some ex =>
      let ex := if movie.source ∈ ex.sources then ex
                else { ex with sources := ex.sources ++ [movie.source] }
      let ex := if strContains ex.venue movie.venue then ex
                else { ex with venue := ex.venue ++ ", " ++ movie.venue }
      dictInsert m k ex

/-- The dedup phase of `get_all_movies`: fold the listings into the
URL-keyed dict, then take the values in insertion order. -/
def dedupeMovies (listings : List Listing) : List MergedMovie :=
  (listings.foldl mergeInto []).map (fun p => p.2)

/-! ## Specification-side descriptions used to state chain ordering -/

/-- The candidate URLs of the resolution fallback chain, in the order
the specification gives: original identifier, year-stripped,
with-suffix-stripped (only when the title contains " with "), then
ampersand-collapsed. -/
def chainCandidates (letterboxd_url title : String) : List String :=
  [letterboxd_url, generate_letterboxd_url (removeParenYear title)] ++
    (if hasWithWord title then [generate_letterboxd_url (stripWithSuffix title)]
     else []) ++
    [generate_letterboxd_url (ampersandTitle title)]

/-- Scan candidates left to right with a per-URL result function,
stopping at the first whose `url` is present; also return the prefix of
candidates actually attempted. -/
def chainScan (f : String → RatingRecord) : List String → RatingRecord × List String
  | [] => (noneRecord, [])
  | c :: cs =>
      let r := f c
      if r.url ≠ none then (r, [c])
      else
        let (r', t) := chainScan f cs
        (r', c :: t)

/-! ## Concrete fixtures for boundary and counterexample theorems -/

/-- A well-formed cache row. -/
def goodRow : CsvRow :=
  { letterboxd_url := "https://letterboxd.com/film/alpha/", title := "Alpha"
    rating := "3.5", rating_count := "100", year := "2000"
    updated := "2024-03-10T00:00:00" }

/-- A row whose `rating` column makes `float` raise. -/
def badRow : CsvRow :=
  { letterboxd_url := "https://letterboxd.com/film/beta/", title := "Beta"
    rating := "abc", rating_count := "", year := ""
    updated := "2024-03-10T00:00:00" }

/-- A second well-formed row. -/
def goodRow2 : CsvRow :=
  { letterboxd_url := "https://letterboxd.com/film/gamma/", title := "Gamma"
    rating := "2.5", rating_count := "None", year := "None"
    updated := "2024-03-10T00:00:00" }

/-- A row with a parseable rating but a malformed timestamp. -/
def badTsRow : CsvRow :=
  { letterboxd_url := "https://letterboxd.com/film/delta/", title := "Delta"
    rating := "3.0", rating_count := "", year := ""
    updated := "not-a-date" }

/-- Epoch seconds of `2024-03-10T00:00:00`. -/
def t0 : Int := 1710028800

/-- A cache entry last updated at `t0`. -/
def entry0 : CacheEntry :=
  { title := "Alpha", rating := 4, rating_count := none, year := some "1999"
    updated := "2024-03-10T00:00:00", url := "https://letterboxd.com/film/alpha/" }

/-- A cache entry whose timestamp is years before `t0` (stale). -/
def staleEntry : CacheEntry :=
  { title := "Alpha", rating := 4, rating_count := none, year := some "1999"
    updated := "2020-01-01T00:00:00", url := "https://letterboxd.com/film/alpha/" }

/-- A page for a URL that resolves with an aggregate rating. -/
def pageHit : PageData :=
  { ok := true, scripts := [.movie (some "2001-05-01") (some (4, 200))]
    dynamic := none, avgText := none, filmTitleText := none }

/-- A page for a URL that resolves to a Movie with no rating anywhere. -/
def pageFoundNoRating : PageData :=
  { ok := true, scripts := [.movie none none]
    dynamic := none, avgText := none, filmTitleText := none }

/-- A non-200 response. -/
def pageNotFound : PageData :=
  { ok := false, scripts := [], dynamic := none, avgText := none
    filmTitleText := none }

/-- A fresh `LetterboxdAPI` state (empty caches). -/
def st0 : ApiState := { csv_cache := [], cache := [], movies_found_no_rating := [] }

/-- A listing with a usable letterboxd URL. -/
def movieAlpha : Movie :=
  { title := some "Alpha", venue := "V", sources := ["s"]
    letterboxd_url := .val "https://letterboxd.com/film/alpha/"
    letterboxd_rating := .absent, year := .absent }

/-- A listing whose `letterboxd_url` is present but empty. -/
def movieEmptyUrl : Movie :=
  { title := some "Empty", venue := "V", sources := ["s"]
    letterboxd_url := .val "", letterboxd_rating := .absent, year := .absent }

/-- Two listings sharing a canonical identifier with different venues
but the same source tag. -/
def listingX : Listing :=
  { title := "Alpha", venue := "Venue X", url := "tx", source := "sx"
    letterboxd_url := "https://letterboxd.com/film/alpha/" }

def listingY : Listing :=
  { title := "AlphaBis", venue := "Venue Y", url := "ty", source := "sx"
    letterboxd_url := "https://letterboxd.com/film/alpha/" }

/-- A third listing with the same identifier but a distinct source tag. -/
def listingZ : Listing :=
  { title := "AlphaTer", venue := "Venue Z", url := "tz", source := "sy"
    letterboxd_url := "https://letterboxd.com/film/alpha/" }

/-- An entry with an unparseable timestamp (as `_load_csv_cache` would
index it from `badTsRow`, whose rating column is fine). -/
def deltaEntry : CacheEntry :=
  { title := "Delta", rating := 3, rating_count := none, year := none
    updated := "not-a-date", url := "https://letterboxd.com/film/delta/" }

/-- Concrete chain-ordering scenario: a title with both a year and an
ampersand. -/
def title6 : String := "Stiller & Meara (2001)"

def url6 : String := generate_letterboxd_url title6

/-- A page oracle on which only the ampersand-collapsed candidate
resolves. -/
def page6 : String → PageData := fun c =>
  if c = generate_letterboxd_url (ampersandTitle title6) then pageHit
  else pageNotFound

/-! # Theorems settling the claims -/

/-! ## Shared helper lemmas -/

theorem strContains_refl (s : String) : strContains s s = true := by
  simp only [strContains, decide_eq_true_eq]
  exact List.infix_refl _

theorem strContains_append_left (a b : String) :
    strContains (a ++ b) a = true := by
  simp only [strContains, decide_eq_true_eq, String.data_append]
  exact (List.prefix_append _ _).isInfix

theorem strContains_append_right (a b : String) :
    strContains (a ++ b) b = true := by
  simp only [strContains, decide_eq_true_eq, String.data_append]
  exact (List.suffix_append _ _).isInfix

theorem strContains_append_left₂ (a b c : String) :
    strContains (a ++ b ++ c) a = true := by
  simp only [strContains, decide_eq_true_eq, String.data_append]
  exact ((List.prefix_append _ _).trans (List.prefix_append _ _)).isInfix

/-- If `t` is a substring of `s`, `strContains s t` holds (Python
`t in s`). -/
theorem strContains_of_infix {s t : String} (h : t.data <:+: s.data) :
    strContains s t = true := by
  simp only [strContains, decide_eq_true_eq]
  exact h

/-- The `_load_csv_cache` row loop aborts (its `except` branch fires) as
soon as any row's rating string makes `float` raise. -/
theorem loadRows_error {rows : List CsvRow} (acc : CsvCache)
    (h : ∃ r ∈ rows, rowRating r = .error ()) : loadRows rows acc = none := by
  induction rows generalizing acc with
  | nil => simp at h
  | cons r rs ih =>
      rcases h with ⟨r', hr', herr⟩
      rcases List.mem_cons.mp hr' with rfl | hmem
      · unfold loadRows
        rw [herr]
      · unfold loadRows
        rcases hrr : rowRating r with e | q
        · rfl
        · rcases q with _ | q
          · exact ih _ ⟨r', hmem, herr⟩
          · exact ih _ ⟨r', hmem, herr⟩

/-! ## C7 — cache freshness boundary -/

/-- **C7.** The freshness test of `_get_from_cache` is inclusive at
exactly 24 hours: for an indexed entry whose timestamp parses to `t`, a
lookup at time `now` is a hit whenever `now - t ≤ 86400` seconds (in
particular at exactly 24 hours) and a miss whenever `now - t > 86400`
(in particular one second beyond). -/
theorem cache_freshness_boundary (cache : CsvCache) (u : String)
    (e : CacheEntry) (t now : Int) (hfind : dictFind? cache u = some e)
    (hiso : fromIso? e.updated = some t) :
    (now - t ≤ 86400 → getFromCache cache now u = some e) ∧
    (86400 < now - t → getFromCache cache now u = none) := by
  unfold getFromCache
  rw [hfind]
  dsimp only
  rw [hiso]
  constructor
  · intro h
    simp [h]
  · intro h
    simp [show ¬ (now - t ≤ 86400) by omega]

/-- Witness for C7 at the concrete boundary timestamps. -/
theorem cache_freshness_boundary_witness :
    getFromCache [("https://letterboxd.com/film/alpha/", entry0)] (t0 + 86400)
      "https://letterboxd.com/film/alpha/" = some entry0 ∧
    getFromCache [("https://letterboxd.com/film/alpha/", entry0)] (t0 + 86401)
      "https://letterboxd.com/film/alpha/" = none :=
  ⟨(cache_freshness_boundary [("https://letterboxd.com/film/alpha/", entry0)]
      "https://letterboxd.com/film/alpha/" entry0 t0 (t0 + 86400) rfl rfl).1
      (by norm_num),
   (cache_freshness_boundary [("https://letterboxd.com/film/alpha/", entry0)]
      "https://letterboxd.com/film/alpha/" entry0 t0 (t0 + 86401) rfl rfl).2
      (by norm_num)⟩

/-! ## C3 — cache-load failure handling (corrected) -/

/-- **C3 counterexample.** A file whose middle row has the malformed
rating "abc" between two well-formed rows loads an *empty* in-memory
index: the well-formed rows are *not* loaded, contradicting the
claim that only the malformed row is dropped. -/
theorem cache_load_counterexample :
    (pyFloat? goodRow.rating).isSome = true ∧
    (pyFloat? goodRow2.rating).isSome = true ∧
    rowRating badRow = .error () ∧
    loadCsvCache [goodRow, badRow, goodRow2] = [] := by
  refine ⟨by decide, by decide, rfl, rfl⟩

/-- **C3 (amended).** A malformed numeric rating field on *any* row
makes the whole load abort: the `except` handler resets the in-memory
index to empty, so every row of the file is treated as a cache miss (no
fatal error is raised — the function still returns).  A malformed
*timestamp*, by contrast, does not affect loading at all; the row is
indexed and is treated as a miss at lookup time by `_get_from_cache`. -/
theorem cache_load_failure_amended (rows : List CsvRow) (cache : CsvCache)
    (u : String) (e : CacheEntry) (now : Int)
    (hbadrow : ∃ r ∈ rows, rowRating r = .error ())
    (hfind : dictFind? cache u = some e)
    (hts : fromIso? e.updated = none) :
    loadCsvCache rows = [] ∧ getFromCache cache now u = none := by
  constructor
  · unfold loadCsvCache
    rw [loadRows_error [] hbadrow]
    rfl
  · unfold getFromCache
    rw [hfind]
    dsimp only
    rw [hts]

/-- Witness for C3's amended theorem at the concrete fixtures. -/
theorem cache_load_failure_amended_witness :
    loadCsvCache [goodRow, badRow, goodRow2] = [] ∧
    getFromCache [("https://letterboxd.com/film/delta/", deltaEntry)] t0
      "https://letterboxd.com/film/delta/" = none :=
  cache_load_failure_amended [goodRow, badRow, goodRow2]
    [("https://letterboxd.com/film/delta/", deltaEntry)]
    "https://letterboxd.com/film/delta/" deltaEntry t0
    ⟨badRow, by simp, rfl⟩ rfl rfl

/-! ## C2 — ampersand normalization (corrected) -/

set_option maxRecDepth 40000 in
/-- **C2 counterexample.** The normalizer maps "Stiller & Meara" to the
slug `stiller-and-meara` (it replaces `&` by the word "and"), which is
*not* the slug of "Stiller Meara". -/
theorem normalizer_ampersand_counterexample :
    generate_letterboxd_url "Stiller & Meara" =
      "https://letterboxd.com/film/stiller-and-meara/" ∧
    generate_letterboxd_url "Stiller Meara" =
      "https://letterboxd.com/film/stiller-meara/" ∧
    generate_letterboxd_url "Stiller & Meara" ≠
      generate_letterboxd_url "Stiller Meara" := by
  refine ⟨by decide, by decide, by decide⟩

set_option maxRecDepth 40000 in
/-- **C2 (amended).** The normalizer sends "Stiller & Meara" to
`stiller-and-meara`, a different slug from `normalize("Stiller Meara")`
= `stiller-meara`; the fallback chain's ampersand transformation
(replace `&` by a space, collapse whitespace, strip, then normalize)
does yield exactly the slug of "Stiller Meara". -/
theorem normalizer_ampersand_amended :
    generate_letterboxd_url "Stiller & Meara" =
      "https://letterboxd.com/film/stiller-and-meara/" ∧
    generate_letterboxd_url (ampersandTitle "Stiller & Meara") =
      generate_letterboxd_url "Stiller Meara" ∧
    generate_letterboxd_url "Stiller Meara" =
      "https://letterboxd.com/film/stiller-meara/" := by
  refine ⟨by decide, by decide, by decide⟩

/-! ## C10 — listings with a missing/empty URL pass through untouched -/

/-- **C10.** An uncached listing whose `letterboxd_url` is missing,
`None` or empty is returned by the batch coordinator completely
unchanged: `process_single_movie` performs no fetch, adds no field and
appends nothing to the not-found accumulator; `filter_movies_by_cache`
routes it to the uncached partition; and the one-listing batch returns
it as-is (so it still counts toward the output length) with untouched
state and an empty fetch trace. -/
theorem empty_url_listing_untouched (page : String → PageData) (now : Int)
    (st : ApiState) (nf : List Movie) (cache : CsvCache) (m : Movie)
    (h : truthyUrl m.letterboxd_url = none) :
    processSingleMovie page now st nf m = (m, st, nf, []) ∧
    filterMoviesByCache cache [m] = ([], [m]) ∧
    processMovieBatch page now st [m] = ([m], st, []) := by
  refine ⟨?_, ?_, ?_⟩
  · unfold processSingleMovie
    rw [h]
  · simp [filterMoviesByCache, h]
  · simp [processMovieBatch, filterMoviesByCache, processBatchGo,
      processSingleMovie, h]

/-- Witness for C10 at a concrete empty-URL listing. -/
theorem empty_url_listing_untouched_witness :
    processMovieBatch (fun _ => pageNotFound) t0 st0 [movieEmptyUrl] =
      ([movieEmptyUrl], st0, []) :=
  (empty_url_listing_untouched (fun _ => pageNotFound) t0 st0 [] []
    movieEmptyUrl rfl).2.2

/-! ## C1 — the cache partition ignores freshness (corrected) -/

/-- **C1 counterexample.** A listing whose only cache entry is four
years stale (its timestamp parses, and is far outside the 24-hour
window) is still placed in the *cached* partition by
`filter_movies_by_cache` and the batch performs no fetch for it,
contradicting the claim that a stale-only listing is re-fetched. -/
theorem stale_cache_partition_counterexample :
    fromIso? staleEntry.updated = some 1577836800 ∧
    86400 < t0 - 1577836800 ∧
    filterMoviesByCache [("https://letterboxd.com/film/alpha/", staleEntry)]
      [movieAlpha] = ([enrichFromCache movieAlpha staleEntry], []) ∧
    processMovieBatch (fun _ => pageNotFound) t0
      { csv_cache := [("https://letterboxd.com/film/alpha/", staleEntry)]
        cache := [], movies_found_no_rating := [] } [movieAlpha] =
      ([enrichFromCache movieAlpha staleEntry],
       { csv_cache := [("https://letterboxd.com/film/alpha/", staleEntry)]
         cache := [], movies_found_no_rating := [] }, []) := by
  refine ⟨by decide, by decide, by decide, by decide⟩

/-- **C1 (amended).** `filter_movies_by_cache` consults only membership
of the canonical identifier in the CSV index, never freshness: a
listing whose entry is stale (here: `86400 < now - t`, so
`_get_from_cache` itself would miss) is still placed in the cached
partition, enriched synchronously from the stale entry, and the batch
performs no fetch for it.  Only `get_rating_from_url`, reached for
*uncached* listings, applies the 24-hour window. -/
theorem cache_partition_ignores_freshness (page : String → PageData)
    (now t : Int) (st : ApiState) (m : Movie) (u : String) (e : CacheEntry)
    (hu : truthyUrl m.letterboxd_url = some u)
    (he : dictFind? st.csv_cache u = some e)
    (ht : fromIso? e.updated = some t)
    (hstale : 86400 < now - t) :
    filterMoviesByCache st.csv_cache [m] = ([enrichFromCache m e], []) ∧
    processMovieBatch page now st [m] = ([enrichFromCache m e], st, []) ∧
    getFromCache st.csv_cache now u = none := by
  refine ⟨?_, ?_, ?_⟩
  · simp [filterMoviesByCache, hu, he]
  · simp [processMovieBatch, filterMoviesByCache, hu, he]
  · unfold getFromCache
    rw [he]
    dsimp only
    rw [ht]
    simp [show ¬ (now - t ≤ 86400) by omega]

/-- Witness for C1's amended theorem at the stale fixture. -/
theorem cache_partition_ignores_freshness_witness :
    filterMoviesByCache [("https://letterboxd.com/film/alpha/", staleEntry)]
      [movieAlpha] = ([enrichFromCache movieAlpha staleEntry], []) :=
  (cache_partition_ignores_freshness (fun _ => pageNotFound) t0 1577836800
    { csv_cache := [("https://letterboxd.com/film/alpha/", staleEntry)]
      cache := [], movies_found_no_rating := [] }
    movieAlpha "https://letterboxd.com/film/alpha/" staleEntry
    rfl rfl rfl (by decide)).1

/-! ## C9 — deduplication venue/source merge (corrected) -/

/-- **C9 counterexample.** Two listings sharing a canonical identifier
with *different* venue strings but the *same* source tag merge into one
record whose `sources` list has exactly one element, not two. -/
theorem dedupe_sources_counterexample :
    listingX.letterboxd_url = listingY.letterboxd_url ∧
    listingX.venue ≠ listingY.venue ∧
    dedupeMovies [listingX, listingY] =
      [{ title := "Alpha", venue := "Venue X, Venue Y", url := "tx"
         source := "sx", letterboxd_url := "https://letterboxd.com/film/alpha/"
         sources := ["sx"] }] := by
  refine ⟨rfl, by decide, rfl⟩

/-- **C9 (amended).** Folding two listings with one canonical
identifier yields exactly one merged record: the first-seen title is
kept and the merged venue string contains both venue strings as
substrings.  Its `sources` list has exactly 2 distinct elements when
the two listings' source tags differ, and exactly 1 when they
coincide. -/
theorem dedupe_merge_amended (l1 l2 : Listing)
    (h : l2.letterboxd_url = l1.letterboxd_url) :
    (dedupeMovies [l1, l2]).length = 1 ∧
    ∀ mm ∈ dedupeMovies [l1, l2],
      mm.title = l1.title ∧
      strContains mm.venue l1.venue = true ∧
      strContains mm.venue l2.venue = true ∧
      mm.sources = (if l2.source = l1.source then [l1.source]
                    else [l1.source, l2.source]) ∧
      mm.sources.length = (if l2.source = l1.source then 1 else 2) := by
  by_cases hs : l2.source = l1.source <;>
    by_cases hv : strContains l1.venue l2.venue = true
  all_goals
    simp only [dedupeMovies, List.foldl, mergeInto, dictFind?, dictInsert,
      List.find?, List.any, List.map, h, hs, hv, decide_True, Bool.or_false,
      decide_eq_true_eq, if_true, if_false, List.mem_singleton]
  all_goals simp_all [List.mem_singleton, strContains_refl,
    strContains_append_left₂, strContains_append_right]

/-- Witness for C9's amended theorem: two concrete listings with
distinct source tags. -/
theorem dedupe_merge_amended_witness :
    (dedupeMovies [listingX, listingZ]).length = 1 :=
  (dedupe_merge_amended listingX listingZ rfl).1

/-! ## C8 — batch length and per-listing fields (corrected) -/

theorem fieldOfOption_ne_absent {α : Type} (o : Option α) :
    fieldOfOption o ≠ Field.absent := by
  cases o <;> simp [fieldOfOption]

/-- The two partitions of `filter_movies_by_cache` together preserve the
input length. -/
theorem filter_partition_length (cache : CsvCache) (ms : List Movie) :
    (filterMoviesByCache cache ms).1.length +
      (filterMoviesByCache cache ms).2.length = ms.length := by
  induction ms with
  | nil => rfl
  | cons m rest ih =>
      cases h : truthyUrl m.letterboxd_url with
      | none =>
          simp only [filterMoviesByCache, h, List.length_cons]
          omega
      | some u =>
          cases h2 : dictFind? cache u with
          | none =>
              simp only [filterMoviesByCache, h, h2, List.length_cons]
              omega
          | some e =>
              simp only [filterMoviesByCache, h, h2, List.length_cons]
              omega

/-- Every listing in the cached partition carries all three enrichment
fields. -/
theorem filter_cached_fields (cache : CsvCache) (ms : List Movie) :
    ∀ m' ∈ (filterMoviesByCache cache ms).1,
      m'.letterboxd_rating ≠ Field.absent ∧
      m'.letterboxd_url ≠ Field.absent ∧ m'.year ≠ Field.absent := by
  induction ms with
  | nil => intro m' hm'; simp [filterMoviesByCache] at hm'
  | cons m rest ih =>
      intro m' hm'
      cases h : truthyUrl m.letterboxd_url with
      | none =>
          simp only [filterMoviesByCache, h] at hm'
          exact ih m' hm'
      | some u =>
          cases h2 : dictFind? cache u with
          | none =>
              simp only [filterMoviesByCache, h, h2] at hm'
              exact ih m' hm'
          | some e =>
              simp only [filterMoviesByCache, h, h2, List.mem_cons] at hm'
              rcases hm' with rfl | hmem
              · exact ⟨by simp [enrichFromCache], by simp [enrichFromCache],
                  by simp [enrichFromCache]; exact fieldOfOption_ne_absent _⟩
              · exact ih m' hmem

/-- Every listing in the uncached partition is one of the inputs. -/
theorem filter_uncached_mem (cache : CsvCache) (ms : List Movie) :
    ∀ m' ∈ (filterMoviesByCache cache ms).2, m' ∈ ms := by
  induction ms with
  | nil => intro m' hm'; simp [filterMoviesByCache] at hm'
  | cons m rest ih =>
      intro m' hm'
      cases h : truthyUrl m.letterboxd_url with
      | none =>
          simp only [filterMoviesByCache, h, List.mem_cons] at hm'
          rcases hm' with rfl | hmem
          · exact List.mem_cons_self _ _
          · exact List.mem_cons_of_mem _ (ih m' hmem)
      | some u =>
          cases h2 : dictFind? cache u with
          | none =>
              simp only [filterMoviesByCache, h, h2, List.mem_cons] at hm'
              rcases hm' with rfl | hmem
              · exact List.mem_cons_self _ _
              · exact List.mem_cons_of_mem _ (ih m' hmem)
          | some e =>
              simp only [filterMoviesByCache, h, h2] at hm'
              exact List.mem_cons_of_mem _ (ih m' hm')

/-- The worker phase returns exactly one listing per input. -/
theorem batchGo_length (page : String → PageData) (now : Int)
    (ms : List Movie) (st : ApiState) (nf : List Movie) :
    (processBatchGo page now ms st nf).1.length = ms.length := by
  induction ms generalizing st nf with
  | nil => rfl
  | cons m rest ih => simp [processBatchGo, ih]

/-- Every listing the worker phase returns either carries all three
fields or is an untouched input with an unusable URL. -/
theorem batchGo_fields (page : String → PageData) (now : Int)
    (ms : List Movie) (st : ApiState) (nf : List Movie) :
    ∀ m' ∈ (processBatchGo page now ms st nf).1,
      (m'.letterboxd_rating ≠ Field.absent ∧ m'.letterboxd_url ≠ Field.absent ∧
        m'.year ≠ Field.absent) ∨
      (truthyUrl m'.letterboxd_url = none ∧ m' ∈ ms) := by
  induction ms generalizing st nf with
  | nil => intro m' hm'; simp [processBatchGo] at hm'
  | cons m rest ih =>
      intro m' hm'
      simp only [processBatchGo, List.mem_cons] at hm'
      rcases hm' with rfl | hmem
      · unfold processSingleMovie
        cases h : truthyUrl m.letterboxd_url with
        | none => exact .inr ⟨by simpa [h], by simp [h, List.mem_cons]⟩
        | some u =>
            refine .inl ⟨?_, ?_, ?_⟩ <;>
              simp [h, fieldOfOption_ne_absent]
      · rcases ih _ _ m' hmem with h3 | ⟨ht, hmem2⟩
        · exact .inl h3
        · exact .inr ⟨ht, List.mem_cons_of_mem _ hmem2⟩

/-- **C8 counterexample.** A batch containing an uncached listing whose
`letterboxd_url` is present but empty returns that listing with its
`letterboxd_url` field present and its `letterboxd_rating` and `year`
fields missing: the returned record is partially populated,
contradicting the claim that every returned listing carries all three
fields. -/
theorem batch_fields_counterexample :
    (processMovieBatch (fun _ => pageNotFound) t0 st0 [movieEmptyUrl]).1 =
      [movieEmptyUrl] ∧
    movieEmptyUrl.letterboxd_url ≠ Field.absent ∧
    movieEmptyUrl.letterboxd_rating = Field.absent ∧
    movieEmptyUrl.year = Field.absent := by
  refine ⟨rfl, by simp [movieEmptyUrl], rfl, rfl⟩

/-- **C8 (amended).** For any input list, `process_movie_batch` returns
exactly one listing per input (cached partition plus processed
partition), and every returned listing either carries all three fields
`letterboxd_rating`, `letterboxd_url`, `year` (each possibly `None` but
present) or is an input listing with a missing/`None`/empty
`letterboxd_url`, returned completely unchanged and hence possibly
missing some of the three fields. -/
theorem batch_length_and_fields (page : String → PageData) (now : Int)
    (st : ApiState) (movies : List Movie) :
    ((processMovieBatch page now st movies).1).length = movies.length ∧
    ∀ m' ∈ (processMovieBatch page now st movies).1,
      (m'.letterboxd_rating ≠ Field.absent ∧ m'.letterboxd_url ≠ Field.absent ∧
        m'.year ≠ Field.absent) ∨
      (truthyUrl m'.letterboxd_url = none ∧ m' ∈ movies) := by
  unfold processMovieBatch
  by_cases hmov : movies = []
  · subst hmov
    simp
  · simp only [if_neg hmov]
    by_cases hunc : (filterMoviesByCache st.csv_cache movies).2 = []
    · simp only [hunc, if_pos rfl]
      constructor
      · have hlen := filter_partition_length st.csv_cache movies
        rw [hunc] at hlen
        simpa using hlen
      · intro m' hm'
        exact .inl (filter_cached_fields _ _ m' hm')
    · simp only [if_neg hunc]
      constructor
      · have hlen := filter_partition_length st.csv_cache movies
        simp only [List.length_append, batchGo_length]
        omega
      · intro m' hm'
        rcases List.mem_append.mp hm' with hc | hp
        · exact .inl (filter_cached_fields _ _ m' hc)
        · rcases batchGo_fields page now _ st [] m' hp with h3 | ⟨ht, hmem⟩
          · exact .inl h3
          · exact .inr ⟨ht, filter_uncached_mem _ _ m' hmem⟩

/-- Witness for C8's amended theorem at a concrete one-listing batch. -/
theorem batch_length_and_fields_witness :
    ((processMovieBatch (fun _ => pageNotFound) t0 st0 [movieEmptyUrl]).1).length
      = 1 ∧
    ((movieEmptyUrl.letterboxd_rating ≠ Field.absent ∧
        movieEmptyUrl.letterboxd_url ≠ Field.absent ∧
        movieEmptyUrl.year ≠ Field.absent) ∨
      (truthyUrl movieEmptyUrl.letterboxd_url = none ∧
        movieEmptyUrl ∈ [movieEmptyUrl])) :=
  ⟨(batch_length_and_fields (fun _ => pageNotFound) t0 st0 [movieEmptyUrl]).1,
   (batch_length_and_fields (fun _ => pageNotFound) t0 st0 [movieEmptyUrl]).2
     movieEmptyUrl (by rw [(rfl :
       (processMovieBatch (fun _ => pageNotFound) t0 st0 [movieEmptyUrl]).1 =
         [movieEmptyUrl])]; exact List.mem_singleton_self _)⟩

/-! ## C4 — the RatingRecord invariant -/

/-- Any loop state satisfying "a rating implies the movie was found"
keeps that property through the JSON-LD script loop (every branch that
assigns a rating first sets `found_movie_data`). -/
theorem scriptsLoop_rating_found (dyn : Option (ℚ × Int × Bool))
    (ss : List ScriptOutcome) (st : LoopSt)
    (h : st.rating ≠ none → st.found = true) :
    (scriptsLoop dyn ss st).rating ≠ none →
      (scriptsLoop dyn ss st).found = true := by
  induction ss generalizing st with
  | nil => exact h
  | cons sc rest ih =>
      cases sc with
      | notMovie => exact ih st h
      | movieRaise dc r => exact ih _ (fun _ => rfl)
      | movie dc agg =>
          intro _
          cases agg with
          | some p => rfl
          | none =>
              cases hd : dyn with
              | some q => simp [scriptsLoop, hd]
              | none => simp [scriptsLoop, hd]

/-- If the HTML-fallback stage completes with `found_movie_data` still
false, the rating is absent and the block appended nothing. -/
theorem fetchStage_not_found {pd : PageData} {u : String} {ls : LoopSt}
    {r' : Option ℚ} {y' : Option String} {ap : List String}
    (hinv : ls.rating ≠ none → ls.found = true)
    (hok : fetchStage pd u ls = .ok (r', y', false, ap)) :
    r' = none ∧ ap = [] := by
  unfold fetchStage at hok
  split at hok
  · rename_i hcond
    rcases hav : avgRating pd.avgText with e | r0
    · rw [hav] at hok
      cases hok
    · rw [hav] at hok
      simp only [Except.ok.injEq, Prod.mk.injEq] at hok
      exact absurd hok.2.2.1 (by simp [hcond.2])
  · rename_i hcond
    by_cases hrat : ls.rating = none
    · simp only [if_pos hrat] at hok
      rcases hav : avgRating pd.avgText with e | r0
      · rw [hav] at hok
        cases hok
      · rw [hav] at hok
        simp only [Except.ok.injEq, Prod.mk.injEq] at hok
        rcases hok with ⟨hr, hy, hf, hap⟩
        refine ⟨?_, hap.symm⟩
        by_cases hcase : (r0.isSome ∨ ((pd.filmTitleText.bind
            (fun t => find4Digits t.data)) <|> ls.year).isSome)
        · rw [if_pos hcase] at hf
          cases hf
        · rw [if_neg hcase] at hf
          rw [← hr]
          rcases r0 with _ | v
          · rfl
          · exact absurd (Or.inl rfl) hcase
    · simp only [if_neg hrat] at hok
      simp only [Except.ok.injEq, Prod.mk.injEq] at hok
      exact absurd hok.2.2.1 (by simp [hinv hrat])

/-- A record the fetcher returns with an absent identifier also has an
absent rating. -/
theorem fetch_url_none_rating_none (page : String → PageData) (now : Int)
    (st : ApiState) (u t : String)
    (hurl : (fetchRatingFromUrl page now st u t).1.url = none) :
    (fetchRatingFromUrl page now st u t).1.rating = none := by
  unfold fetchRatingFromUrl at hurl ⊢
  by_cases hok : (page u).ok = false
  · simp [if_pos hok, noneRecord]
  · simp only [if_neg hok] at hurl ⊢
    rcases hst : fetchStage (page u) u
        (scriptsLoop (page u).dynamic (page u).scripts ⟨none, none, none, false⟩)
      with e | ⟨r', y', found', ap⟩
    · simp [hst, noneRecord]
    · simp only [hst] at hurl ⊢
      cases found' with
      | true => cases r' <;> simp [fetchFinish] at hurl
      | false =>
          have hinv := scriptsLoop_rating_found (page u).dynamic (page u).scripts
            ⟨none, none, none, false⟩ (by intro h; simp at h)
          rcases fetchStage_not_found hinv hst with ⟨rfl, rfl⟩
          simp [fetchFinish]

/-- If the trailing fallbacks come back with no identifier, the result
is the literal all-`None` record. -/
theorem lateFallbacks_url_none (page : String → PageData) (now : Int)
    (st : ApiState) (title : String)
    (h : (lateFallbacks page now st title).1.url = none) :
    (lateFallbacks page now st title).1 = noneRecord := by
  unfold lateFallbacks at h ⊢
  by_cases hw : hasWithWord title = true
  all_goals by_cases ha : hasAmp title = true
  all_goals
    by_cases h3 : (fetchRatingFromUrl page now st
        (generate_letterboxd_url (stripWithSuffix title)) title).1.url = none
  all_goals
    by_cases h4 : (fetchRatingFromUrl page now
        (fetchRatingFromUrl page now st
          (generate_letterboxd_url (stripWithSuffix title)) title).2
        (generate_letterboxd_url (ampersandTitle title)) title).1.url = none
  all_goals
    by_cases h4b : (fetchRatingFromUrl page now st
        (generate_letterboxd_url (ampersandTitle title)) title).1.url = none
  all_goals simp_all [noneRecord]

/-- **C4.** For every record the fetcher or the resolver returns: if the
identifier (`url`) field is absent then the `rating` field is absent —
no result is ever "rated but not found".  The resolver's in-process
title cache (which starts empty and only ever stores fetch results with
a present identifier) is assumed to satisfy the invariant. -/
theorem rating_record_invariant (page : String → PageData) (now : Int)
    (st : ApiState) (u t : String)
    (hcache : ∀ p ∈ st.cache, p.2.url = none → p.2.rating = none) :
    ((fetchRatingFromUrl page now st u t).1.url = none →
      (fetchRatingFromUrl page now st u t).1.rating = none) ∧
    ((getRatingFromUrl page now st u t).1.url = none →
      (getRatingFromUrl page now st u t).1.rating = none) := by
  refine ⟨fetch_url_none_rating_none page now st u t, ?_⟩
  unfold getRatingFromUrl
  cases hgc : getFromCache st.csv_cache now u with
  | some e =>
      intro h
      simp [entryRecord] at h
  | none =>
      cases htc : dictFind? st.cache t with
      | some r =>
          intro h
          rcases Option.map_eq_some'.mp htc with ⟨p, hfind, hp2⟩
          exact hp2 ▸ hcache p (List.mem_of_find?_eq_some hfind) (hp2 ▸ h)
      | none =>
          intro h
          dsimp only at h ⊢
          split_ifs at h ⊢ with hf1 hy hf2
          · exact absurd h hf1
          · exact absurd h hf2
          · dsimp only at h ⊢
            rw [lateFallbacks_url_none page now _ t h]
            rfl
          · dsimp only at h ⊢
            rw [lateFallbacks_url_none page now _ t h]
            rfl

/-- Witness for C4 at a concrete failing fetch. -/
theorem rating_record_invariant_witness :
    (fetchRatingFromUrl (fun _ => pageNotFound) t0 st0 "u" "T").1.rating = none :=
  (rating_record_invariant (fun _ => pageNotFound) t0 st0 "u" "T"
    (by intro p hp; simp [st0] at hp)).1 rfl

/-! ## C5 — persisted-cache write iff identifier and rating present -/

/-- **C5.** For every fetch result: the CSV cache is written exactly
when both the identifier and the rating are present — the new entry is
the dict insertion of the result's fields under the fetched URL with a
fresh timestamp; in every other outcome the CSV cache is untouched; and
a result with identifier present but rating absent has its URL appended
to the ephemeral `movies_found_no_rating` list instead. -/
theorem cache_write_iff_rated (page : String → PageData) (now : Int)
    (st : ApiState) (u t : String) :
    (∀ r : ℚ, (fetchRatingFromUrl page now st u t).1.rating = some r →
      (fetchRatingFromUrl page now st u t).1.url ≠ none →
      (fetchRatingFromUrl page now st u t).2.csv_cache =
        dictInsert st.csv_cache u
          (savedEntry now u t r
            (fetchRatingFromUrl page now st u t).1.rating_count
            (fetchRatingFromUrl page now st u t).1.year)) ∧
    (((fetchRatingFromUrl page now st u t).1.rating = none ∨
        (fetchRatingFromUrl page now st u t).1.url = none) →
      (fetchRatingFromUrl page now st u t).2.csv_cache = st.csv_cache) ∧
    ((fetchRatingFromUrl page now st u t).1.url ≠ none →
      (fetchRatingFromUrl page now st u t).1.rating = none →
      u ∈ (fetchRatingFromUrl page now st u t).2.movies_found_no_rating) := by
  unfold fetchRatingFromUrl
  by_cases hok : (page u).ok = false
  · simp only [if_pos hok]
    refine ⟨?_, ?_, ?_⟩
    · intro r hr
      simp [noneRecord] at hr
    · intro _
      trivial
    · intro hu
      exact absurd rfl hu
  · simp only [if_neg hok]
    rcases hst : fetchStage (page u) u
        (scriptsLoop (page u).dynamic (page u).scripts ⟨none, none, none, false⟩)
      with e | ⟨r', y', found', ap⟩
    · refine ⟨?_, ?_, ?_⟩
      · intro r hr
        simp [noneRecord] at hr
      · intro _
        trivial
      · intro hu
        exact absurd rfl hu
    · cases r' with
      | some r =>
          cases found' with
          | true =>
              refine ⟨?_, ?_, ?_⟩
              · intro r0 hr0 _
                have hrr : r = r0 := by simpa [fetchFinish] using hr0
                subst hrr
                simp [fetchFinish]
              · intro hd
                rcases hd with hd | hd <;> simp [fetchFinish] at hd
              · intro _ hr0
                simp [fetchFinish] at hr0
          | false =>
              refine ⟨?_, ?_, ?_⟩
              · intro r0 _ hu
                simp [fetchFinish] at hu
              · intro _
                simp [fetchFinish]
              · intro hu _
                simp [fetchFinish] at hu
      | none =>
          cases found' with
          | true =>
              refine ⟨?_, ?_, ?_⟩
              · intro r0 hr0 _
                simp [fetchFinish] at hr0
              · intro _
                simp [fetchFinish]
              · intro _ _
                simp only [fetchFinish]
                by_cases hmem : u ∈ st.movies_found_no_rating ++ ap
                · simpa [hmem] using hmem
                · simp [hmem]
          | false =>
              refine ⟨?_, ?_, ?_⟩
              · intro r0 hr0 _
                simp [fetchFinish] at hr0
              · intro _
                simp [fetchFinish]
              · intro hu _
                simp [fetchFinish] at hu

/-- Witness for C5: a concrete fetch with identifier and rating present
writes exactly the expected entry. -/
theorem cache_write_iff_rated_witness :
    (fetchRatingFromUrl (fun _ => pageHit) t0 st0 "u" "T").2.csv_cache =
      dictInsert st0.csv_cache "u"
        (savedEntry t0 "u" "T" 4
          (fetchRatingFromUrl (fun _ => pageHit) t0 st0 "u" "T").1.rating_count
          (fetchRatingFromUrl (fun _ => pageHit) t0 st0 "u" "T").1.year) :=
  (cache_write_iff_rated (fun _ => pageHit) t0 st0 "u" "T").1 4 rfl (by decide)

/-! ## C6 — fallback chain ordering -/

/-- A fetch that finds no identifier leaves the instance state exactly
as it was (no cache write, no list append). -/
theorem fetch_fail_state (page : String → PageData) (now : Int) (st : ApiState)
    (u t : String) (h : (fetchRatingFromUrl page now st u t).1.url = none) :
    (fetchRatingFromUrl page now st u t).2 = st := by
  unfold fetchRatingFromUrl at h ⊢
  by_cases hok : (page u).ok = false
  · simp [if_pos hok]
  · simp only [if_neg hok] at h ⊢
    rcases hst : fetchStage (page u) u
        (scriptsLoop (page u).dynamic (page u).scripts ⟨none, none, none, false⟩)
      with e | ⟨r', y', found', ap⟩
    · simp [hst]
    · simp only [hst] at h ⊢
      cases found' with
      | true => cases r' <;> simp [fetchFinish] at h
      | false =>
          have hinv := scriptsLoop_rating_found (page u).dynamic (page u).scripts
            ⟨none, none, none, false⟩ (by intro hx; simp at hx)
          rcases fetchStage_not_found hinv hst with ⟨rfl, rfl⟩
          simp [fetchFinish]

/-- **C6.** When both caches miss, the URL carries a year suffix and the
title contains an ampersand, the resolver attempts exactly the
candidates [original, year-stripped] ++ (with-stripped when the title
contains " with ") ++ [ampersand-collapsed], in that order, and returns
the result of the first candidate whose fetch confirms an identifier,
attempting nothing further: both the record and the ordered fetch trace
equal those of the left-to-right scan `chainScan` over
`chainCandidates`. -/
theorem fallback_chain_order (page : String → PageData) (now : Int)
    (st : ApiState) (u t : String)
    (hmiss : getFromCache st.csv_cache now u = none)
    (htitle : dictFind? st.cache t = none)
    (hyear : urlHasYearSuffix u = true)
    (hamp : hasAmp t = true) :
    (getRatingFromUrl page now st u t).1 =
      (chainScan (fun c => (fetchRatingFromUrl page now st c t).1)
        (chainCandidates u t)).1 ∧
    (getRatingFromUrl page now st u t).2.2 =
      (chainScan (fun c => (fetchRatingFromUrl page now st c t).1)
        (chainCandidates u t)).2 := by
  unfold getRatingFromUrl
  rw [hmiss]
  dsimp only
  rw [htitle]
  dsimp only
  by_cases h1 : (fetchRatingFromUrl page now st u t).1.url = none
  · rw [fetch_fail_state page now st u t h1]
    by_cases h2 : (fetchRatingFromUrl page now st
        (generate_letterboxd_url (removeParenYear t)) t).1.url = none
    · rw [fetch_fail_state page now st _ t h2]
      unfold lateFallbacks
      dsimp only
      by_cases hw : hasWithWord t = true
      · by_cases h3 : (fetchRatingFromUrl page now st
            (generate_letterboxd_url (stripWithSuffix t)) t).1.url = none
        · rw [fetch_fail_state page now st _ t h3]
          by_cases h4 : (fetchRatingFromUrl page now st
              (generate_letterboxd_url (ampersandTitle t)) t).1.url = none
          · simp [chainScan, chainCandidates, h1, h2, h3, h4, hw, hamp, hyear]
          · simp [chainScan, chainCandidates, h1, h2, h3, h4, hw, hamp, hyear]
        · simp [chainScan, chainCandidates, h1, h2, h3, hw, hamp, hyear]
      · by_cases h4 : (fetchRatingFromUrl page now st
            (generate_letterboxd_url (ampersandTitle t)) t).1.url = none
        · simp [chainScan, chainCandidates, h1, h2, h4, hw, hamp, hyear]
        · simp [chainScan, chainCandidates, h1, h2, h4, hw, hamp, hyear]
    · simp [chainScan, chainCandidates, h1, h2, hyear, hamp]
  · simp [chainScan, chainCandidates, h1]

set_option maxRecDepth 40000 in
/-- Witness for C6 at a concrete title with a year and an ampersand,
on a page oracle where only the ampersand candidate resolves. -/
theorem fallback_chain_order_witness :
    (getRatingFromUrl page6 t0 st0 url6 title6).2.2 =
      (chainScan (fun c => (fetchRatingFromUrl page6 t0 st0 c title6).1)
        (chainCandidates url6 title6)).2 :=
  (fallback_chain_order page6 t0 st0 url6 title6 rfl rfl (by decide)
    (by decide)).2

end MovieFinder